import Mathlib

/-!
Shallow embedding of the vector-backed semantic retrieval subsystem of the
Painpoint repository: the `VectorStore` class (src/vector_store.py and its
near-duplicate src/clean_app/backend/app/services/vector_store.py, which adds
`get_all_documents`), the embedding helper src/backend/app/utils/embeddings.py,
and the no-query browse branches of `get_live_problems` in the two servers
(src/rag_server.py and src/clean_app/app/server.py).

Modelling conventions:
* ChromaDB distances and the derived `similarity_score = 1 - distance` are
  modelled as exact integers; every property under study is about ordering and
  the affine transform `1 - d`, both preserved by any linearly ordered ring.
* The SentenceTransformer encoder is an abstract parameter
  `Option (String -> List Int)`; `none` models the model being unavailable or
  raising inside `encode` (the only failure the `try` blocks can see).
* The ChromaDB collection is a list of `StoredDoc` in insertion order;
  `collection.query` is an exhaustive scan sorted stably by ascending distance
  (ChromaDB's contract as relied on by the code); `collection.get` returns at
  most `limit` records matching the `where` clause.
* A raising persistence layer is a `Bool` flag (`persistOk` for
  `collection.add`, `fail` for the read-side operations), since the Python code
  only ever branches on "raised or not".
* Python dict keys that may be absent are `Option` fields; `doc.get(k, dflt)`
  is `Option.getD`.
-/

/-- Python string slicing `s[:n]` (character-based). -/
def pyTake (n : Nat) (s : String) : String := ⟨s.data.take n⟩

/-- Python `s.lower()`: characterwise lower-casing. -/
def pyLower (s : String) : String := ⟨s.data.map Char.toLower⟩

/-- A document handed to `VectorStore.add_documents` (a loosely-typed Python
dict; optional keys are `Option`). `title` is accessed as `doc['title']` and is
therefore required. -/
structure InputDoc where
  title : String
  ai_problem_statement : Option String
  description : Option String
  category : Option String
  subreddit : Option String
  url : Option String
  score : Option Int
  created_utc : Option Int
  processed_at : Option String
deriving DecidableEq

/-- One record of the ChromaDB collection: id, retrievable document text,
the metadata dict written by `add_documents`, and the embedding vector. -/
structure StoredDoc where
  id : String
  document : String
  title : String
  subreddit : String
  category : String
  url : String
  score : Int
  created_utc : Int
  processed_at : String
  description : String
  embedding : List Int
deriving DecidableEq

/-- A formatted result of `VectorStore.search_similar`. -/
structure SearchResult where
  id : String
  title : String
  ai_problem_statement : String
  description : String
  category : String
  subreddit : String
  url : String
  score : Int
  similarity_score : Int
  processed_at : String
deriving DecidableEq

/-- A document dict built by `VectorStore.get_all_documents`
(src/clean_app/backend/app/services/vector_store.py). -/
structure BrowseDoc where
  id : String
  title : String
  ai_problem_statement : String
  category : String
  subreddit : String
  url : String
  score : Int
  description : String
  created_utc : Int
  processed_at : String
  similarity_score : Int
deriving DecidableEq

/-- The encoder applied to a single text; `none` models
`SentenceTransformer.encode` raising. -/
def encodeOne (enc : Option (String → List Int)) (t : String) : List Int :=
  match enc with
  | some f => f t
  | none => List.replicate 384 0

/-- `VectorStore.generate_embeddings` (src/vector_store.py lines 49-56): on
success one embedding per text, on any exception the fallback
`[[0.0] * 384] * len(texts)`. -/
def generate_embeddings (enc : Option (String → List Int)) (texts : List String) :
    List (List Int) :=
  match enc with
  | some f => texts.map f
  | none => List.replicate texts.length (List.replicate 384 0)

/-- `generate_embedding` (src/backend/app/utils/embeddings.py lines 22-28): on
any exception the fallback is the empty list. -/
def generate_embedding (enc : Option (String → List Int)) (text : String) : List Int :=
  match enc with
  | some f => f text
  | none => []

/-- The text embedded for a document:
`f"{doc['title']} {doc.get('ai_problem_statement', '')} {doc.get('description', '')[:200]}"`. -/
def embeddingText (d : InputDoc) : String :=
  d.title ++ " " ++ d.ai_problem_statement.getD "" ++ " " ++ pyTake 200 (d.description.getD "")

/-- The ChromaDB record written for one input document by `add_documents`
(id, document text, metadata dict, embedding). -/
def mkStoredDoc (docId : String) (emb : List Int) (now : String) (d : InputDoc) : StoredDoc :=
  { id := docId
    document := d.ai_problem_statement.getD d.title
    title := pyTake 500 d.title
    subreddit := d.subreddit.getD ""
    category := d.category.getD "General Tech"
    url := d.url.getD ""
    score := d.score.getD 0
    created_utc := d.created_utc.getD 0
    processed_at := d.processed_at.getD now
    description := pyTake 500 (d.description.getD "")
    embedding := emb }

/-- The batch prepared by `add_documents`: fresh ids (`uuid.uuid4()` modelled by
the injected generator `idGen`), metadata, and the batched
`generate_embeddings` output zipped back per document. -/
def persistBatch (enc : Option (String → List Int)) (idGen : Nat → String) (now : String)
    (docs : List InputDoc) : List StoredDoc :=
  List.zipWith (fun (p : Nat × InputDoc) e => mkStoredDoc (idGen p.1) e now p.2)
    docs.enum (generate_embeddings enc (docs.map embeddingText))

/-- `VectorStore.add_documents` (src/vector_store.py lines 58-116).
`persistOk = false` models `collection.add` raising; the exception is caught
and `False` returned with the collection unchanged (ChromaDB's batch add is
all-or-nothing). An empty batch returns `False` before any write. -/
def add_documents (enc : Option (String → List Int)) (idGen : Nat → String) (now : String)
    (store : List StoredDoc) (documents : List InputDoc) (persistOk : Bool) :
    Bool × List StoredDoc :=
  if documents.isEmpty then (false, store)
  else if persistOk then (true, store ++ persistBatch enc idGen now documents)
  else (false, store)

/-- The `where` clause built by `search_similar` / `get_all_documents`:
`if category_filter and category_filter != "All"` — Python truthiness makes
both `None` and the empty string fall through to "no filter". -/
def whereClause (category_filter : Option String) : Option String :=
  match category_filter with
  | none => none
  | some c => if c = "" ∨ c = "All" then none else some c

/-- ChromaDB's metadata filtering: restrict the collection to records matching
the `where` clause, if any. -/
def applyWhere (w : Option String) (store : List StoredDoc) : List StoredDoc :=
  match w with
  | none => store
  | some c => store.filter (fun d => decide (d.category = c))

/-- A scan hit: a stored record together with the distance the index reports
between it and the query embedding. -/
structure QueryHit where
  doc : StoredDoc
  dist : Int
deriving DecidableEq

/-- Ordering of hits by ascending reported distance. -/
def hitLE (a b : QueryHit) : Prop := a.dist ≤ b.dist

instance : DecidableRel hitLE := fun a b => inferInstanceAs (Decidable (a.dist ≤ b.dist))

instance : IsTotal QueryHit hitLE := ⟨fun a b => Int.le_total a.dist b.dist⟩

instance : IsTrans QueryHit hitLE := ⟨fun _ _ _ h h' => le_trans h h'⟩

/-- `collection.query(...)`: distances to every record matching the `where`
clause, ranked by ascending distance (stable in insertion order), truncated to
`n_results`. -/
def collectionQuery (store : List StoredDoc) (metric : List Int → List Int → Int)
    (queryEmb : List Int) (n_results : Nat) (w : Option String) : List QueryHit :=
  (List.insertionSort hitLE
    ((applyWhere w store).map (fun d => ⟨d, metric queryEmb d.embedding⟩))).take n_results

/-- The result dict built from one hit by `search_similar`
(src/vector_store.py lines 141-152), with
`"similarity_score": 1 - results['distances'][0][i]`. -/
def formatResult (h : QueryHit) : SearchResult :=
  { id := h.doc.id
    title := h.doc.title
    ai_problem_statement := h.doc.document
    description := h.doc.description
    category := h.doc.category
    subreddit := h.doc.subreddit
    url := h.doc.url
    score := h.doc.score
    similarity_score := 1 - h.dist
    processed_at := h.doc.processed_at }

/-- `VectorStore.search_similar` (src/vector_store.py lines 118-160).
`fail = true` models the ChromaDB call raising: the exception is caught and the
empty list returned. -/
def search_similar (fail : Bool) (enc : Option (String → List Int))
    (metric : List Int → List Int → Int) (store : List StoredDoc) (query : String)
    (n_results : Nat) (category_filter : Option String) : List SearchResult :=
  if fail then []
  else
    (collectionQuery store metric ((generate_embeddings enc [query]).headD [])
      n_results (whereClause category_filter)).map formatResult

/-- `VectorStore.get_all_categories` (src/vector_store.py lines 162-181):
sorted distinct categories of (at most) the first 1000 records; on any
exception the literal fallback `["General Tech"]`. -/
def get_all_categories (fail : Bool) (store : List StoredDoc) : List String :=
  if fail then ["General Tech"]
  else List.insertionSort (fun a b : String => a ≤ b) (((store.take 1000).map (·.category)).dedup)

/-- The `tech_subreddits` allow-set of `get_all_documents`
(src/clean_app/backend/app/services/vector_store.py lines 191-196), verbatim
including its mixed-case entries. -/
def tech_subreddits : List String :=
  ["learnprogramming", "webdev", "sysadmin", "techsupport", "softwaregore",
   "UXDesign", "userexperience", "SaaS", "SideProject", "startups",
   "indianstartups", "Entrepreneur", "Notion", "ObsidianMD", "trello",
   "Futurology", "productivity"]

/-- The document dict built from one record by `get_all_documents`, with
`"similarity_score": 1.0` for every browsed document. -/
def toBrowseDoc (d : StoredDoc) : BrowseDoc :=
  { id := d.id
    title := d.title
    ai_problem_statement := d.document
    category := d.category
    subreddit := d.subreddit
    url := d.url
    score := d.score
    description := d.description
    created_utc := d.created_utc
    processed_at := d.processed_at
    similarity_score := 1 }

/-- `VectorStore.get_all_documents`
(src/clean_app/backend/app/services/vector_store.py lines 185-259):
`collection.get` retrieves at most `limit` records matching the category
`where` clause, and only then is the `tech_only` subreddit filter applied,
comparing the lower-cased subreddit against `tech_subreddits`. -/
def get_all_documents (fail : Bool) (store : List StoredDoc) (limit : Nat)
    (category_filter : Option String) (tech_only : Bool) : List BrowseDoc :=
  if fail then []
  else
    let retrieved := (applyWhere (whereClause category_filter) store).take limit
    let kept :=
      if tech_only then
        retrieved.filter (fun d => decide (pyLower d.subreddit ∈ tech_subreddits))
      else retrieved
    kept.map toBrowseDoc

/-- `VectorStore.clear_collection` (src/vector_store.py lines 200-212): the
client's collection slot, `none` when no collection of that name exists.
`delete_collection` raises on a missing collection (caught, returning
`False`); otherwise delete followed by `create_collection` leaves a fresh
empty collection. -/
def clear_collection (state : Option (List StoredDoc)) : Bool × Option (List StoredDoc) :=
  match state with
  | some _ => (true, some [])
  | none => (false, none)

/-- `collection.count()`. -/
def collection_count (state : Option (List StoredDoc)) : Nat := (state.getD []).length

/-- The canned `sample_queries` of the no-query branch of
`get_live_problems` (src/rag_server.py lines 82-88). -/
def sample_queries : List String :=
  ["software bug error crash", "install setup configuration",
   "performance slow optimization", "database connection issue",
   "web development problem"]

/-- Unbounded first-seen de-duplication by result id. -/
def dedup_by_id : List String → List SearchResult → List SearchResult
  | _, [] => []
  | seen, r :: rest =>
    if seen.contains r.id then dedup_by_id seen rest
    else r :: dedup_by_id (r.id :: seen) rest

/-- The de-duplication loop of `get_live_problems` (src/rag_server.py lines
99-107): skip already-seen ids, append, and break as soon as
`len(unique_results) >= limit` — the break is tested after the append, so the
first argument is the remaining budget `limit - len(unique_results)`. -/
def dedup_limit : Nat → List String → List SearchResult → List SearchResult
  | _, _, [] => []
  | limit, seen, r :: rest =>
    if seen.contains r.id then dedup_limit limit seen rest
    else if limit ≤ 1 then [r]
    else r :: dedup_limit (limit - 1) (r.id :: seen) rest

/-- Number of distinct result ids in a list. -/
def distinct_ids (rs : List SearchResult) : Nat := ((rs.map (·.id)).dedup).length

/-- The no-query branch of `get_live_problems` in src/rag_server.py (lines
77-123): one `search_similar` call per canned sample query with
`n_results = limit // len(sample_queries) + 2`, concatenated and de-duplicated
with the bounded loop. The subsequent grouping of results by category is a
presentation transform over this list and is not modelled. -/
def rag_live_problems_browse (enc : Option (String → List Int))
    (metric : List Int → List Int → Int) (store : List StoredDoc) (limit : Nat)
    (category : Option String) : List SearchResult :=
  dedup_limit limit []
    ((sample_queries.map (fun sq =>
      search_similar false enc metric store sq (limit / sample_queries.length + 2) category)).flatten)

/-- The no-query branch of `get_live_problems` in src/clean_app/app/server.py
(lines 89-127): `get_all_documents` with the safety limit
`limit if limit <= 100 else 1000`, re-sliced to at most 100 when `limit` is the
default 20. The grouping by category is again not modelled. -/
def clean_live_problems_browse (store : List StoredDoc) (limit : Nat)
    (category : Option String) (tech_only : Bool) : List BrowseDoc :=
  let all_results := get_all_documents false store (if limit ≤ 100 then limit else 1000)
    category tech_only
  if limit = 20 then all_results.take (min 100 all_results.length) else all_results

/-! Concrete fixtures used by counterexamples and witnesses. -/

/-- An encoder that always succeeds (with a trivial vector). -/
def enc0 : Option (String → List Int) := some (fun _ => [])

/-- A metric reporting distance 0 for every pair. -/
def metric0 : List Int → List Int → Int := fun _ _ => 0

/-- A metric reporting distance 2 (the maximal cosine distance) for every pair. -/
def metric2 : List Int → List Int → Int := fun _ _ => 2

/-- A concrete stored record with category "Database" and an allow-listed
subreddit. -/
def docDB : StoredDoc :=
  { id := "doc-1"
    document := "Resolve PostgreSQL database connection timeout issues"
    title := "PostgreSQL connection timeout"
    subreddit := "webdev"
    category := "Database"
    url := "https://reddit.com/test2"
    score := 23
    created_utc := 0
    processed_at := "2025-01-01T00:00:00"
    description := "Database connections are timing out"
    embedding := [] }

/-- A concrete stored record with the sentinel category "General Tech". -/
def docGT : StoredDoc :=
  { id := "doc-2"
    document := "Fix laptop overheating"
    title := "Laptop overheating"
    subreddit := "techsupport"
    category := "General Tech"
    url := "https://reddit.com/test3"
    score := 5
    created_utc := 0
    processed_at := "2025-01-01T00:00:00"
    description := ""
    embedding := [] }

/-! Helper lemmas. -/

lemma generate_embeddings_eq_map (enc : Option (String → List Int)) (texts : List String) :
    generate_embeddings enc texts = texts.map (encodeOne enc) := by
  cases enc with
  | some f => rfl
  | none =>
    show List.replicate texts.length (List.replicate 384 0) = _
    rw [← List.map_const']
    rfl

lemma applyWhere_nil (w : Option String) : applyWhere w [] = [] := by
  cases w <;> rfl

lemma persistBatch_category_aux (enc : Option (String → List Int)) (idGen : Nat → String)
    (now : String) :
    ∀ (i : Nat) (docs : List InputDoc),
      (List.zipWith (fun (p : Nat × InputDoc) e => mkStoredDoc (idGen p.1) e now p.2)
          (List.enumFrom i docs) (docs.map (fun d => encodeOne enc (embeddingText d)))).map
        (·.category)
      = docs.map (fun d => d.category.getD "General Tech") := by
  intro i docs
  induction docs generalizing i with
  | nil => rfl
  | cons d rest ih =>
    simp only [List.enumFrom, List.map_cons, List.zipWith_cons_cons]
    exact congrArg₂ List.cons rfl (ih (i + 1))

/-- C9: every record persisted by `add_documents` carries a string-valued
category (the metadata field is total by construction), and a document whose
input dict lacks a category is normalized to the sentinel "General Tech" at
write time, so no stored document has a missing category. -/
theorem add_documents_category_default (enc : Option (String → List Int))
    (idGen : Nat → String) (now : String) (store : List StoredDoc) (docs : List InputDoc) :
    (persistBatch enc idGen now docs).map (·.category)
        = docs.map (fun d => d.category.getD "General Tech") ∧
    add_documents enc idGen now store docs true
        = if docs.isEmpty then (false, store)
          else (true, store ++ persistBatch enc idGen now docs) := by
  constructor
  · unfold persistBatch
    rw [generate_embeddings_eq_map, List.map_map]
    exact persistBatch_category_aux enc idGen now 0 docs
  · simp [add_documents]

/-- C3 counterexample: the fail-soft path of `generate_embedding`
(src/backend/app/utils/embeddings.py line 28) returns the empty list, not a
zero vector of the model dimensionality 384 that the claim demands. -/
theorem generate_embedding_failure_counterexample :
    generate_embedding none "AI for customer pain point detection" = [] ∧
    (generate_embedding none "AI for customer pain point detection").length = 0 ∧
    ¬ (generate_embedding none "AI for customer pain point detection")
        = List.replicate 384 (0 : Int) := by
  refine ⟨rfl, rfl, fun h => ?_⟩
  have hl := congrArg List.length h
  rw [List.length_replicate] at hl
  exact absurd hl (by decide)

/-- C3 amended: embedding failures never escape the embedding boundary, and the
two fail-soft paths differ: `VectorStore.generate_embeddings` substitutes one
384-dimensional zero vector per input (preserving output length and order),
while `generate_embedding` in backend/app/utils/embeddings.py substitutes the
empty list (length 0, not 384) for its single input. -/
theorem embedding_fail_soft (texts : List String) (t : String) :
    (generate_embeddings none texts).length = texts.length ∧
    List.Forall (fun v => v = List.replicate 384 (0 : Int)) (generate_embeddings none texts) ∧
    List.Forall (fun v => v.length = 384) (generate_embeddings none texts) ∧
    generate_embedding none t = [] := by
  have hrepl : generate_embeddings none texts
      = List.replicate texts.length (List.replicate 384 (0 : Int)) := rfl
  refine ⟨?_, ?_, ?_, rfl⟩
  · rw [hrepl, List.length_replicate]
  · rw [List.forall_iff_forall_mem]
    intro x hx
    rw [hrepl] at hx
    exact List.eq_of_mem_replicate hx
  · rw [List.forall_iff_forall_mem]
    intro x hx
    rw [hrepl] at hx
    rw [List.eq_of_mem_replicate hx, List.length_replicate]

/-- C4: `add_documents` returns `False` on an empty batch (a no-op, not an
exception) and returns `False` with the prior collection contents untouched
when persistence raises; it returns `True` exactly when the whole batch was
persisted, in which case the collection is the old contents plus the batch. -/
theorem add_documents_empty_or_failed (enc : Option (String → List Int))
    (idGen : Nat → String) (now : String) (store : List StoredDoc)
    (docs : List InputDoc) (persistOk : Bool) :
    add_documents enc idGen now store [] persistOk = (false, store) ∧
    add_documents enc idGen now store docs false = (false, store) ∧
    ((add_documents enc idGen now store docs persistOk).1 = true ↔
      docs ≠ [] ∧ persistOk = true) ∧
    add_documents enc idGen now store docs persistOk
      = if docs.isEmpty then (false, store)
        else if persistOk then (true, store ++ persistBatch enc idGen now docs)
        else (false, store) := by
  cases persistOk <;> cases docs <;> simp [add_documents]

/-- C7 counterexample: a failing similarity search returns the plain empty
list, exactly the ordinary result of a successful search over an empty store,
and a failing category enumeration returns the ordinary default
`["General Tech"]`, exactly the successful result over a store holding one
"General Tech" document — no distinguishable error reaches the caller. -/
theorem store_errors_swallowed_counterexample :
    search_similar true enc0 metric0 [docDB] "database help" 5 none = [] ∧
    search_similar false enc0 metric0 [] "database help" 5 none = [] ∧
    get_all_categories true [docDB] = ["General Tech"] ∧
    get_all_categories false [docGT] = ["General Tech"] := by
  refine ⟨rfl, rfl, rfl, rfl⟩

/-- C7 amended: store-level read failures are swallowed, not surfaced:
`search_similar` catches any exception and returns the empty list —
indistinguishable from a successful search over an empty collection — and
`get_all_categories` catches any exception and returns the ordinary default
`["General Tech"]`. -/
theorem store_errors_swallowed (enc : Option (String → List Int))
    (metric : List Int → List Int → Int) (store : List StoredDoc) (q : String)
    (n : Nat) (cf : Option String) :
    search_similar true enc metric store q n cf = [] ∧
    get_all_categories true store = ["General Tech"] ∧
    search_similar true enc metric store q n cf = search_similar false enc metric [] q n cf := by
  refine ⟨rfl, rfl, ?_⟩
  simp [search_similar, collectionQuery, applyWhere_nil]

/-- C8: `clear_collection` is idempotent: starting from any existing
collection, clearing succeeds, leaves `count() = 0`, and clearing again
succeeds with no error and `count() = 0` again. -/
theorem clear_collection_idempotent (docs : List StoredDoc) :
    clear_collection (some docs) = (true, some []) ∧
    collection_count (clear_collection (some docs)).2 = 0 ∧
    clear_collection ((clear_collection (some docs)).2) = (true, some []) ∧
    collection_count (clear_collection ((clear_collection (some docs)).2)).2 = 0 :=
  ⟨rfl, rfl, rfl, rfl⟩

/-! Ranking and filtering. -/

lemma forall2_map_self {α β : Type} (f : α → β) (R : β → α → Prop) (h : ∀ a, R (f a) a) :
    ∀ l : List α, List.Forall₂ R (l.map f) l
  | [] => List.Forall₂.nil
  | a :: l => List.Forall₂.cons (h a) (forall2_map_self f R h l)

lemma collectionQuery_sorted (store : List StoredDoc) (metric : List Int → List Int → Int)
    (queryEmb : List Int) (n : Nat) (w : Option String) :
    List.Pairwise hitLE (collectionQuery store metric queryEmb n w) :=
  List.Pairwise.sublist (List.take_sublist n _)
    (List.sorted_insertionSort hitLE ((applyWhere w store).map (fun d => ⟨d, metric queryEmb d.embedding⟩)))

lemma collectionQuery_length_le (store : List StoredDoc) (metric : List Int → List Int → Int)
    (queryEmb : List Int) (n : Nat) (w : Option String) :
    (collectionQuery store metric queryEmb n w).length ≤ n := by
  rw [collectionQuery, List.length_take]
  exact min_le_left _ _

/-- C1: for every query, result count and category filter, `search_similar`
returns at most `n_results` results, pairwise ordered by descending
`similarity_score`; the underlying index hits are ordered by ascending
reported distance, and each returned result is the formatting of the
corresponding hit with `similarity_score = 1 - distance`. -/
theorem search_similar_topk_ordered (enc : Option (String → List Int))
    (metric : List Int → List Int → Int) (store : List StoredDoc) (q : String)
    (n : Nat) (cf : Option String) :
    (search_similar false enc metric store q n cf).length ≤ n ∧
    List.Pairwise (fun a b : SearchResult => b.similarity_score ≤ a.similarity_score)
      (search_similar false enc metric store q n cf) ∧
    List.Pairwise hitLE
      (collectionQuery store metric ((generate_embeddings enc [q]).headD []) n (whereClause cf)) ∧
    List.Forall₂ (fun r h => r = formatResult h ∧ r.similarity_score = 1 - h.dist)
      (search_similar false enc metric store q n cf)
      (collectionQuery store metric ((generate_embeddings enc [q]).headD []) n (whereClause cf)) := by
  have hdef : search_similar false enc metric store q n cf
      = (collectionQuery store metric ((generate_embeddings enc [q]).headD [])
          n (whereClause cf)).map formatResult := rfl
  refine ⟨?_, ?_, collectionQuery_sorted _ _ _ _ _, ?_⟩
  · rw [hdef, List.length_map]
    exact collectionQuery_length_le _ _ _ _ _
  · rw [hdef, List.pairwise_map]
    refine (collectionQuery_sorted _ _ _ _ _).imp ?_
    intro a b hab
    have hd : a.dist ≤ b.dist := hab
    show (1 : Int) - b.dist ≤ 1 - a.dist
    omega
  · rw [hdef]
    exact forall2_map_self formatResult _ (fun h => ⟨rfl, rfl⟩) _

/-- C2 counterexample: the empty string is a category filter that is neither
absent nor "All", yet Python truthiness makes `search_similar` drop it (no
`where` clause), so a store holding one "Database" document answers a search
filtered to the empty-string category with that document, whose category is
not the filter value. -/
theorem search_filter_empty_string_counterexample :
    (search_similar false enc0 metric0 [docDB] "any query" 5 (some "")).map (·.category)
      = ["Database"] ∧
    ¬ List.Forall (fun r => r.category = "")
        (search_similar false enc0 metric0 [docDB] "any query" 5 (some "")) := by
  constructor
  · decide
  · decide

lemma mem_applyWhere_some {d : StoredDoc} {c : String} {store : List StoredDoc}
    (h : d ∈ applyWhere (some c) store) : d.category = c :=
  of_decide_eq_true (List.mem_filter.1 h).2

lemma whereClause_some_of_ne {c : String} (hne : c ≠ "") (hall : c ≠ "All") :
    whereClause (some c) = some c := by
  simp [whereClause, hne, hall]

lemma search_similar_mem_category {fail : Bool} {enc : Option (String → List Int)}
    {metric : List Int → List Int → Int} {store : List StoredDoc} {q : String}
    {n : Nat} {c : String} (hne : c ≠ "") (hall : c ≠ "All") {r : SearchResult}
    (hr : r ∈ search_similar fail enc metric store q n (some c)) : r.category = c := by
  cases fail with
  | true => exact absurd hr (by simp [search_similar])
  | false =>
    rw [show search_similar false enc metric store q n (some c)
        = (collectionQuery store metric ((generate_embeddings enc [q]).headD [])
            n (whereClause (some c))).map formatResult from rfl] at hr
    obtain ⟨h, hh, rfl⟩ := List.mem_map.1 hr
    have hmem : h ∈ List.insertionSort hitLE
        ((applyWhere (whereClause (some c)) store).map
          (fun d => ⟨d, metric ((generate_embeddings enc [q]).headD []) d.embedding⟩)) :=
      List.Sublist.mem hh (List.take_sublist n _)
    rw [(List.perm_insertionSort hitLE _).mem_iff] at hmem
    obtain ⟨d, hd, rfl⟩ := List.mem_map.1 hmem
    rw [whereClause_some_of_ne hne hall] at hd
    exact mem_applyWhere_some hd

lemma get_all_documents_mem_category {fail : Bool} {store : List StoredDoc} {limit : Nat}
    {c : String} {t : Bool} (hne : c ≠ "") (hall : c ≠ "All") {r : BrowseDoc}
    (hr : r ∈ get_all_documents fail store limit (some c) t) : r.category = c := by
  cases fail with
  | true => exact absurd hr (by simp [get_all_documents])
  | false =>
    simp only [get_all_documents, Bool.false_eq_true, if_false] at hr
    obtain ⟨d, hd, rfl⟩ := List.mem_map.1 hr
    have hd' : d ∈ (applyWhere (whereClause (some c)) store).take limit := by
      cases t with
      | true => exact (List.mem_filter.1 hd).1
      | false => exact hd
    have hd'' : d ∈ applyWhere (whereClause (some c)) store :=
      List.Sublist.mem hd' (List.take_sublist limit _)
    rw [whereClause_some_of_ne hne hall] at hd''
    exact mem_applyWhere_some hd''

/-- C2 amended: for every category filter that is neither absent, nor the empty
string, nor "All", every document returned by `search_similar` and by
`get_all_documents` has exactly the filtered category (so a search filtered to
one category never returns a document of a disjoint category); when the filter
is absent, empty, or "All", no `where` clause is built and no category
restriction is applied. -/
theorem category_filter_restricts (fail : Bool) (enc : Option (String → List Int))
    (metric : List Int → List Int → Int) (store : List StoredDoc) (q : String)
    (n limit : Nat) (t : Bool) (c : String) (hne : c ≠ "") (hall : c ≠ "All") :
    List.Forall (fun r => r.category = c) (search_similar fail enc metric store q n (some c)) ∧
    List.Forall (fun r => r.category = c) (get_all_documents fail store limit (some c) t) ∧
    whereClause none = none ∧ whereClause (some "All") = none ∧ whereClause (some "") = none := by
  refine ⟨?_, ?_, rfl, by simp [whereClause], by simp [whereClause]⟩
  · rw [List.forall_iff_forall_mem]
    intro r hr
    exact search_similar_mem_category hne hall hr
  · rw [List.forall_iff_forall_mem]
    intro r hr
    exact get_all_documents_mem_category hne hall hr

/-- C2 witness: the amended filter property applied at the concrete filter
"Database" over a concrete one-document store. -/
theorem category_filter_restricts_witness :
    (("Database" : String) ≠ "") ∧ (("Database" : String) ≠ "All") ∧
    (List.Forall (fun r => r.category = "Database")
        (search_similar false enc0 metric0 [docDB] "pg" 5 (some "Database")) ∧
      List.Forall (fun r => r.category = "Database")
        (get_all_documents false [docDB] 5 (some "Database") false) ∧
      whereClause none = none ∧ whereClause (some "All") = none ∧ whereClause (some "") = none) :=
  ⟨by decide, by decide,
    category_filter_restricts false enc0 metric0 [docDB] "pg" 5 5 false "Database"
      (by decide) (by decide)⟩

/-! De-duplication of merged sub-query results (src/rag_server.py lines 99-107). -/

lemma dedup_limit_eq_take :
    ∀ (xs : List SearchResult) (limit : Nat) (seen : List String),
      dedup_limit limit seen xs = (dedup_by_id seen xs).take (max limit 1) := by
  intro xs
  induction xs with
  | nil => intro limit seen; simp [dedup_limit, dedup_by_id]
  | cons r rest ih =>
    intro limit seen
    by_cases hmem : seen.contains r.id
    · simp only [dedup_limit, dedup_by_id, if_pos hmem]
      exact ih limit seen
    · have hrs : r.id ∉ seen := by simpa using hmem
      cases limit with
      | zero => simp [dedup_limit, dedup_by_id, hmem, hrs]
      | succ k =>
        cases k with
        | zero => simp [dedup_limit, dedup_by_id, hmem, hrs]
        | succ m =>
          have hlim : ¬ (m + 1 + 1 ≤ 1) := by omega
          have hmax1 : max (m + 1 + 1) 1 = m + 1 + 1 := Nat.max_eq_left (by omega)
          have hmax2 : max (m + 1) 1 = m + 1 := Nat.max_eq_left (by omega)
          simp only [dedup_limit, dedup_by_id, if_neg hmem, if_neg hlim, hmax1,
            List.take_succ_cons]
          rw [show m + 1 + 1 - 1 = m + 1 from rfl, ih (m + 1) (r.id :: seen), hmax2]

lemma mem_dedup_by_id_ids (i : String) :
    ∀ (seen : List String) (xs : List SearchResult),
      i ∈ (dedup_by_id seen xs).map (·.id) ↔ i ∈ xs.map (·.id) ∧ i ∉ seen := by
  intro seen xs
  induction xs generalizing seen with
  | nil => simp [dedup_by_id]
  | cons r rest ih =>
    by_cases hmem : seen.contains r.id
    · have hrs : r.id ∈ seen := by simpa using hmem
      simp only [dedup_by_id, if_pos hmem, List.map_cons, List.mem_cons]
      rw [ih]
      constructor
      · rintro ⟨h1, h2⟩
        exact ⟨Or.inr h1, h2⟩
      · rintro ⟨h1 | h1, h2⟩
        · exact absurd (h1 ▸ hrs) h2
        · exact ⟨h1, h2⟩
    · have hrs : r.id ∉ seen := by simpa using hmem
      simp only [dedup_by_id, if_neg hmem, List.map_cons, List.mem_cons]
      rw [ih]
      constructor
      · rintro (rfl | ⟨h1, h2⟩)
        · exact ⟨Or.inl rfl, hrs⟩
        · exact ⟨Or.inr h1, fun hs => h2 (List.mem_cons_of_mem _ hs)⟩
      · rintro ⟨h1 | h1, h2⟩
        · exact Or.inl h1
        · by_cases hir : i = r.id
          · exact Or.inl hir
          · refine Or.inr ⟨h1, fun hs => ?_⟩
            rcases List.mem_cons.1 hs with h | h
            · exact hir h
            · exact h2 h

lemma nodup_dedup_by_id_ids :
    ∀ (seen : List String) (xs : List SearchResult),
      ((dedup_by_id seen xs).map (·.id)).Nodup := by
  intro seen xs
  induction xs generalizing seen with
  | nil => simp [dedup_by_id]
  | cons r rest ih =>
    by_cases hmem : seen.contains r.id
    · simp only [dedup_by_id, if_pos hmem]
      exact ih seen
    · simp only [dedup_by_id, if_neg hmem, List.map_cons]
      refine List.Nodup.cons (fun hmm => ?_) (ih _)
      rw [mem_dedup_by_id_ids] at hmm
      exact hmm.2 (List.mem_cons_self _ _)

lemma sublist_dedup_by_id :
    ∀ (seen : List String) (xs : List SearchResult), (dedup_by_id seen xs).Sublist xs := by
  intro seen xs
  induction xs generalizing seen with
  | nil => simp [dedup_by_id]
  | cons r rest ih =>
    by_cases hmem : seen.contains r.id
    · simp only [dedup_by_id, if_pos hmem]
      exact (ih seen).cons r
    · simp only [dedup_by_id, if_neg hmem]
      exact (ih _).cons₂ r

lemma length_dedup_by_id (xs : List SearchResult) :
    (dedup_by_id [] xs).length = distinct_ids xs := by
  have hn := nodup_dedup_by_id_ids [] xs
  have hset : ((dedup_by_id [] xs).map (·.id)).toFinset = (xs.map (·.id)).toFinset := by
    ext i
    simp only [List.mem_toFinset]
    rw [mem_dedup_by_id_ids]
    simp
  calc (dedup_by_id [] xs).length
      = ((dedup_by_id [] xs).map (·.id)).length := (List.length_map _ _).symm
    _ = ((dedup_by_id [] xs).map (·.id)).toFinset.card := (List.toFinset_card_of_nodup hn).symm
    _ = ((xs.map (·.id)).toFinset).card := by rw [hset]
    _ = (xs.map (·.id)).dedup.length := List.card_toFinset _

/-- A concrete search result, as produced for `docDB` at distance 0. -/
def resultDB : SearchResult :=
  { id := "doc-1"
    title := "PostgreSQL connection timeout"
    ai_problem_statement := "Resolve PostgreSQL database connection timeout issues"
    description := "Database connections are timing out"
    category := "Database"
    subreddit := "webdev"
    url := "https://reddit.com/test2"
    score := 23
    similarity_score := 1
    processed_at := "2025-01-01T00:00:00" }

/-- C6 counterexample: with requested limit 0, the de-duplication loop still
emits one result (the break `len(unique_results) >= limit` is only tested
after the first append), so the merged list's length is neither the requested
limit nor the distinct-id count capped at it. -/
theorem dedup_limit_zero_counterexample :
    (dedup_limit 0 [] [resultDB]).length = 1 ∧
    min 0 (distinct_ids [resultDB]) = 0 ∧
    (1 : Nat) ≠ 0 := by
  refine ⟨by decide, by decide, by decide⟩

/-- C6 amended: for every requested limit of at least 1, the merge keeps
exactly one instance per id in first-seen order (the kept list is a
duplicate-free-by-id sublist, hence subsequence, of the merged inputs) and
truncates to the limit, so its length is the number of distinct ids among the
merged inputs capped at the limit. (With limit 0 the loop still emits one
element, see the counterexample.) -/
theorem dedup_first_seen_capped (xs : List SearchResult) (limit : Nat) (hlim : 1 ≤ limit) :
    dedup_limit limit [] xs = (dedup_by_id [] xs).take limit ∧
    (dedup_limit limit [] xs).length = min limit (distinct_ids xs) ∧
    ((dedup_by_id [] xs).map (·.id)).Nodup ∧
    (dedup_by_id [] xs).Sublist xs := by
  have ht := dedup_limit_eq_take xs limit []
  rw [Nat.max_eq_left hlim] at ht
  refine ⟨ht, ?_, nodup_dedup_by_id_ids [] xs, sublist_dedup_by_id [] xs⟩
  rw [ht, List.length_take, length_dedup_by_id]

/-- C6 witness: the amended dedup law applied at limit 2 to a concrete merged
list with one duplicated id. -/
theorem dedup_first_seen_capped_witness :
    (1 : Nat) ≤ 2 ∧
    (dedup_limit 2 [] [resultDB, resultDB] = (dedup_by_id [] [resultDB, resultDB]).take 2 ∧
      (dedup_limit 2 [] [resultDB, resultDB]).length = min 2 (distinct_ids [resultDB, resultDB]) ∧
      ((dedup_by_id [] [resultDB, resultDB]).map (·.id)).Nodup ∧
      (dedup_by_id [] [resultDB, resultDB]).Sublist [resultDB, resultDB]) :=
  ⟨by decide, dedup_first_seen_capped [resultDB, resultDB] 2 (by decide)⟩

/-! Browse-mode retrieval and the two servers' no-query fallbacks. -/

/-- A stored record from a non-allow-listed subreddit. -/
def docNews : StoredDoc :=
  { id := "doc-n1"
    document := "General news item"
    title := "General news item"
    subreddit := "news"
    category := "General Tech"
    url := ""
    score := 1
    created_utc := 0
    processed_at := ""
    description := ""
    embedding := [] }

/-- A stored record from the allow-listed subreddit "webdev". -/
def docWeb1 : StoredDoc :=
  { id := "doc-w1"
    document := "CSS layout breaks on mobile"
    title := "CSS layout breaks on mobile"
    subreddit := "webdev"
    category := "Web Development"
    url := ""
    score := 2
    created_utc := 0
    processed_at := ""
    description := ""
    embedding := [] }

/-- A second stored record from the allow-listed subreddit "webdev". -/
def docWeb2 : StoredDoc :=
  { id := "doc-w2"
    document := "Webpack build fails"
    title := "Webpack build fails"
    subreddit := "webdev"
    category := "Web Development"
    url := ""
    score := 3
    created_utc := 0
    processed_at := ""
    description := ""
    embedding := [] }

lemma get_all_documents_tech_mem {fail : Bool} {store : List StoredDoc} {limit : Nat}
    {cf : Option String} {r : BrowseDoc}
    (hr : r ∈ get_all_documents fail store limit cf true) :
    pyLower r.subreddit ∈ tech_subreddits := by
  cases fail with
  | true => exact absurd hr (by simp [get_all_documents])
  | false =>
    simp only [get_all_documents, Bool.false_eq_true, if_false, if_true] at hr
    obtain ⟨d, hd, rfl⟩ := List.mem_map.1 hr
    exact of_decide_eq_true (List.mem_filter.1 hd).2

/-- C10: with `tech_only` requested, the subreddit allow-list filter of
`get_all_documents` is applied only after `collection.get` has truncated to
`limit` records — so every returned document's lower-cased subreddit is in the
fixed allow-set, yet the concrete three-document store (one disallowed record
inserted first, two allow-listed ones after) yields a single document for
`limit = 2` even though the collection holds two allow-listed documents:
filter-after-truncation, not truncation-after-filter. -/
theorem get_all_documents_tech_filter :
    (∀ (fail : Bool) (store : List StoredDoc) (limit : Nat) (cf : Option String),
      List.Forall (fun r => pyLower r.subreddit ∈ tech_subreddits)
        (get_all_documents fail store limit cf true)) ∧
    (get_all_documents false [docNews, docWeb1, docWeb2] 2 none true).length = 1 ∧
    (([docNews, docWeb1, docWeb2].filter
        (fun d => decide (pyLower d.subreddit ∈ tech_subreddits))).length = 2) ∧
    (1 : Nat) < 2 := by
  refine ⟨?_, by decide, by decide, by decide⟩
  intro fail store limit cf
  rw [List.forall_iff_forall_mem]
  intro r hr
  exact get_all_documents_tech_mem hr

lemma get_all_documents_sim_one {store : List StoredDoc} {limit : Nat}
    {category : Option String} {t : Bool} {r : BrowseDoc}
    (hr : r ∈ get_all_documents false store limit category t) : r.similarity_score = 1 := by
  simp only [get_all_documents, Bool.false_eq_true, if_false] at hr
  obtain ⟨d, _, rfl⟩ := List.mem_map.1 hr
  rfl

/-- C5 counterexample: over a one-document store whose index reports distance 2
for every query, the no-query path of src/rag_server.py returns the document
with its genuine similarity score `1 - 2 = -1` (it re-ranks canned sample
queries through `search_similar`), while `get_all_documents` — the browse path
of src/clean_app/app/server.py — returns the same document with the
neutralized score 1: the two no-query modes do not neutralize
`similarity_score` identically, and the rag server's fallback is not
`get_all`. -/
theorem browse_fallback_counterexample :
    (rag_live_problems_browse enc0 metric2 [docDB] 5 none).map (·.similarity_score)
      = [-1] ∧
    (clean_live_problems_browse [docDB] 5 none true).map (·.similarity_score) = [1] ∧
    ((-1 : Int) ≠ 1) := by
  refine ⟨by decide, by decide, by decide⟩

/-- C5 amended: the two servers' no-query modes differ. The clean_app server's
no-query branch delegates to `get_all_documents` (browse mode) and every
result it returns carries the neutralized `similarity_score` 1, identically to
`get_all_documents` itself; the rag server's no-query branch instead issues
the canned `sample_queries` through `search_similar` and de-duplicates the
merged results, retaining each result's genuine similarity score. -/
theorem browse_modes_characterized (store : List StoredDoc) (limit : Nat)
    (category : Option String) (tech_only : Bool) (enc : Option (String → List Int))
    (metric : List Int → List Int → Int) :
    List.Forall (fun r => r.similarity_score = 1)
      (clean_live_problems_browse store limit category tech_only) ∧
    List.Forall (fun r => r.similarity_score = 1)
      (get_all_documents false store limit category tech_only) ∧
    rag_live_problems_browse enc metric store limit category
      = dedup_limit limit []
          ((sample_queries.map (fun sq =>
            search_similar false enc metric store sq
              (limit / sample_queries.length + 2) category)).flatten) := by
  refine ⟨?_, ?_, rfl⟩
  · rw [List.forall_iff_forall_mem]
    intro r hr
    by_cases h20 : limit = 20
    · simp only [clean_live_problems_browse, h20, if_true, if_pos] at hr
      exact get_all_documents_sim_one
        (List.Sublist.mem hr (List.take_sublist _ _))
    · simp only [clean_live_problems_browse, if_neg h20] at hr
      exact get_all_documents_sim_one hr
  · rw [List.forall_iff_forall_mem]
    intro r hr
    exact get_all_documents_sim_one hr
